import Mathlib

/-!
Shallow embedding of the SQL AST and its renderer (src/sqlast/mod.rs and
src/sqlast/sqltype.rs), with theorems settling the specification claims.

Rust panics (the unwrap calls in the external create-table arm and the
decimal-type arm) are modelled by Option-valued rendering: a panic is none,
a successful render is some text.
-/

namespace SqlAst

/-- Identifier name, in the originally quoted form (a transparent alias of
String, as in the Rust source). -/
abbrev SQLIdent := String

/-- Joining with a separator, as the Rust join method on string vectors. -/
def join_with (sep : String) : List String → String
  | [] => ""
  | [x] => x
  | x :: y :: rest => x ++ sep ++ join_with sep (y :: rest)

/-- Modelled from the spec: the literal-value sub-model (src/sqlast/value.rs,
not under src/) is external; the spec requires only a deterministic
render-to-text operation, so a value is modelled by its rendered text. -/
structure Value where
  rendered : String
deriving DecidableEq

def Value.to_string (v : Value) : String := v.rendered

/-- Modelled from the spec: the single-quoted string literal used by the
create-data-source and create-data-sink renderers; the spec describes its
text as the quoted url. -/
def Value.SingleQuotedString (s : String) : Value := ⟨"\x27" ++ s ++ "\x27"⟩

/-- Modelled from the spec: the operator sub-model (src/sqlast/sql_operator.rs,
not under src/) is external; an operator is modelled by its canonical
textual symbol. -/
structure SQLOperator where
  symbol : String
deriving DecidableEq

def SQLOperator.to_string (op : SQLOperator) : String := op.symbol

/-- Modelled from the spec: the query sub-model (src/sqlast/query.rs, not
under src/) is external; a query is modelled by its rendered text. -/
structure SQLQuery where
  rendered : String
deriving DecidableEq

def SQLQuery.to_string (q : SQLQuery) : String := q.rendered

/-- Modelled from the spec: order-by expressions live in the external query
sub-model; modelled by rendered text. -/
structure SQLOrderByExpr where
  rendered : String
deriving DecidableEq

def SQLOrderByExpr.to_string (o : SQLOrderByExpr) : String := o.rendered

/-- Modelled from the spec: alter-table operations live in the external
table-key sub-model (src/sqlast/table_key.rs, not under src/); modelled by
rendered text. -/
structure AlterOperation where
  rendered : String
deriving DecidableEq

def AlterOperation.to_string (op : AlterOperation) : String := op.rendered

/-- Modelled from the spec: the typed parse error of the external parser
module, carrying a human-readable message. -/
inductive ParserError where
  | ParserError (msg : String)
deriving DecidableEq

/-- A name of a table, view, custom type, etc., possibly multi-part. -/
structure SQLObjectName where
  parts : List SQLIdent
deriving DecidableEq

/-- Rendering of an object name: parts joined with a dot. -/
def SQLObjectName.to_string (n : SQLObjectName) : String :=
  join_with "." n.parts

/-- Like the Rust comma_separated_string helper, on already-rendered parts. -/
def comma_separated_string (l : List String) : String :=
  join_with ", " l

/-- SQL datatypes for literals in SQL statements (src/sqlast/sqltype.rs). -/
inductive SQLType where
  | Char (size : Option Nat)
  | Varchar (size : Option Nat)
  | Uuid
  | Clob (size : Nat)
  | Binary (size : Nat)
  | Varbinary (size : Nat)
  | Blob (size : Nat)
  | Decimal (precision : Option Nat) (scale : Option Nat)
  | Float (size : Option Nat)
  | SmallInt
  | Int
  | BigInt
  | Real
  | Double
  | Boolean
  | Date
  | Time
  | Timestamp
  | Regclass
  | Text
  | Bytea
  | Custom (name : SQLObjectName)
  | Array (ty : SQLType)
deriving DecidableEq

/-- The format_type_with_optional_length helper of sqltype.rs. -/
def format_type_with_optional_length (sql_type : String) (len : Option Nat) : String :=
  match len with
  | some l => sql_type ++ "(" ++ toString l ++ ")"
  | none => sql_type

/-- Rendering of SQLType (sqltype.rs); the Decimal arm unwraps the precision
when a scale is present, which panics (none) if the precision is absent. -/
def SQLType.to_string : SQLType → Option String
  | SQLType.Char size => some (format_type_with_optional_length "char" size)
  | SQLType.Varchar size => some (format_type_with_optional_length "character varying" size)
  | SQLType.Uuid => some "uuid"
  | SQLType.Clob size => some ("clob(" ++ toString size ++ ")")
  | SQLType.Binary size => some ("binary(" ++ toString size ++ ")")
  | SQLType.Varbinary size => some ("varbinary(" ++ toString size ++ ")")
  | SQLType.Blob size => some ("blob(" ++ toString size ++ ")")
  | SQLType.Decimal precision scale =>
    match scale with
    | some s =>
      match precision with
      | some p => some ("numeric(" ++ toString p ++ "," ++ toString s ++ ")")
      | none => none
    | none => some (format_type_with_optional_length "numeric" precision)
  | SQLType.Float size => some (format_type_with_optional_length "float" size)
  | SQLType.SmallInt => some "smallint"
  | SQLType.Int => some "int"
  | SQLType.BigInt => some "bigint"
  | SQLType.Real => some "real"
  | SQLType.Double => some "double"
  | SQLType.Boolean => some "boolean"
  | SQLType.Date => some "date"
  | SQLType.Time => some "time"
  | SQLType.Timestamp => some "timestamp"
  | SQLType.Regclass => some "regclass"
  | SQLType.Text => some "text"
  | SQLType.Bytea => some "bytea"
  | SQLType.Custom name => some name.to_string
  | SQLType.Array ty =>
    match SQLType.to_string ty with
    | some t => some (t ++ "[]")
    | none => none

/-- Window frame units enum (mod.rs). -/
inductive SQLWindowFrameUnits where
  | Rows
  | Range
  | Groups
deriving DecidableEq

/-- Rendering of window frame units. -/
def SQLWindowFrameUnits.to_string : SQLWindowFrameUnits → String
  | SQLWindowFrameUnits.Rows => "ROWS"
  | SQLWindowFrameUnits.Range => "RANGE"
  | SQLWindowFrameUnits.Groups => "GROUPS"

/-- FromStr for SQLWindowFrameUnits (mod.rs lines 318-332). -/
def SQLWindowFrameUnits.from_str (s : String) : Except ParserError SQLWindowFrameUnits :=
  if s = "ROWS" then Except.ok SQLWindowFrameUnits.Rows
  else if s = "RANGE" then Except.ok SQLWindowFrameUnits.Range
  else if s = "GROUPS" then Except.ok SQLWindowFrameUnits.Groups
  else Except.error (ParserError.ParserError
    ("Expected ROWS, RANGE, or GROUPS, found: " ++ s))

/-- Window frame bound (mod.rs). -/
inductive SQLWindowFrameBound where
  | CurrentRow
  | Preceding (offset : Option Nat)
  | Following (offset : Option Nat)
deriving DecidableEq

/-- Rendering of a window frame bound. -/
def SQLWindowFrameBound.to_string : SQLWindowFrameBound → String
  | SQLWindowFrameBound.CurrentRow => "CURRENT ROW"
  | SQLWindowFrameBound.Preceding none => "UNBOUNDED PRECEDING"
  | SQLWindowFrameBound.Following none => "UNBOUNDED FOLLOWING"
  | SQLWindowFrameBound.Preceding (some n) => toString n ++ " PRECEDING"
  | SQLWindowFrameBound.Following (some n) => toString n ++ " FOLLOWING"

/-- Window frame: units, start bound, optional end bound (mod.rs). -/
structure SQLWindowFrame where
  units : SQLWindowFrameUnits
  start_bound : SQLWindowFrameBound
  end_bound : Option SQLWindowFrameBound
deriving DecidableEq

/-- External table file format enum (mod.rs lines 695-704). -/
inductive FileFormat where
  | TEXTFILE
  | SEQUENCEFILE
  | ORC
  | PARQUET
  | AVRO
  | RCFILE
  | JSONFILE
deriving DecidableEq

/-- Rendering of FileFormat (mod.rs lines 706-719); note the JSONFILE arm
renders the TEXTFILE keyword. -/
def FileFormat.to_string : FileFormat → String
  | FileFormat.TEXTFILE => "TEXTFILE"
  | FileFormat.SEQUENCEFILE => "SEQUENCEFILE"
  | FileFormat.ORC => "ORC"
  | FileFormat.PARQUET => "PARQUET"
  | FileFormat.AVRO => "AVRO"
  | FileFormat.RCFILE => "RCFILE"
  | FileFormat.JSONFILE => "TEXTFILE"

/-- FromStr for FileFormat (mod.rs lines 723-742). -/
def FileFormat.from_str (s : String) : Except ParserError FileFormat :=
  if s = "TEXTFILE" then Except.ok FileFormat.TEXTFILE
  else if s = "SEQUENCEFILE" then Except.ok FileFormat.SEQUENCEFILE
  else if s = "ORC" then Except.ok FileFormat.ORC
  else if s = "PARQUET" then Except.ok FileFormat.PARQUET
  else if s = "AVRO" then Except.ok FileFormat.AVRO
  else if s = "RCFILE" then Except.ok FileFormat.RCFILE
  else if s = "JSONFILE" then Except.ok FileFormat.JSONFILE
  else Except.error (ParserError.ParserError ("Unexpected file format: " ++ s))

mutual

/-- An SQL expression of any type (ASTNode, mod.rs lines 55-138). -/
inductive ASTNode where
  | SQLIdentifier (id : SQLIdent)
  | SQLWildcard
  | SQLQualifiedWildcard (parts : List SQLIdent)
  | SQLCompoundIdentifier (parts : List SQLIdent)
  | SQLIsNull (ast : ASTNode)
  | SQLIsNotNull (ast : ASTNode)
  | SQLInList (expr : ASTNode) (list : List ASTNode) (negated : Bool)
  | SQLInSubquery (expr : ASTNode) (subquery : SQLQuery) (negated : Bool)
  | SQLBetween (expr : ASTNode) (negated : Bool) (low : ASTNode) (high : ASTNode)
  | SQLBinaryExpr (left : ASTNode) (op : SQLOperator) (right : ASTNode)
  | SQLCast (expr : ASTNode) (data_type : SQLType)
  | SQLCollate (expr : ASTNode) (collation : SQLObjectName)
  | SQLNested (ast : ASTNode)
  | SQLUnary (operator : SQLOperator) (expr : ASTNode)
  | SQLValue (v : Value)
  | SQLFunction (name : SQLObjectName) (args : List ASTNode)
      (over : Option SQLWindowSpec) (all : Bool) (distinct : Bool)
  | SQLCase (operand : Option ASTNode) (conditions : List ASTNode)
      (results : List ASTNode) (else_result : Option ASTNode)
  | SQLSubquery (q : SQLQuery)

/-- A window specification (mod.rs lines 248-253). -/
inductive SQLWindowSpec where
  | mk (partition_by : List ASTNode) (order_by : List SQLOrderByExpr)
      (window_frame : Option SQLWindowFrame)

end

mutual

/-- Rendering of an expression (impl ToString for ASTNode, mod.rs 140-245). -/
def ASTNode.to_string : ASTNode → Option String
  | ASTNode.SQLIdentifier s => some s
  | ASTNode.SQLWildcard => some "*"
  | ASTNode.SQLQualifiedWildcard q => some (join_with "." q ++ ".*")
  | ASTNode.SQLCompoundIdentifier s => some (join_with "." s)
  | ASTNode.SQLIsNull ast =>
    match ASTNode.to_string ast with
    | some e => some (e ++ " IS NULL")
    | none => none
  | ASTNode.SQLIsNotNull ast =>
    match ASTNode.to_string ast with
    | some e => some (e ++ " IS NOT NULL")
    | none => none
  | ASTNode.SQLInList expr list negated =>
    match ASTNode.to_string expr, ASTNode.renderList list with
    | some e, some ls =>
      some (e ++ " " ++ (if negated then "NOT " else "") ++ "IN (" ++
        comma_separated_string ls ++ ")")
    | _, _ => none
  | ASTNode.SQLInSubquery expr subquery negated =>
    match ASTNode.to_string expr with
    | some e =>
      some (e ++ " " ++ (if negated then "NOT " else "") ++ "IN (" ++
        subquery.to_string ++ ")")
    | none => none
  | ASTNode.SQLBetween expr negated low high =>
    match ASTNode.to_string expr, ASTNode.to_string low, ASTNode.to_string high with
    | some e, some l, some h =>
      some (e ++ " " ++ (if negated then "NOT " else "") ++ "BETWEEN " ++ l ++
        " AND " ++ h)
    | _, _, _ => none
  | ASTNode.SQLBinaryExpr left op right =>
    match ASTNode.to_string left, ASTNode.to_string right with
    | some l, some r => some (l ++ " " ++ op.to_string ++ " " ++ r)
    | _, _ => none
  | ASTNode.SQLCast expr data_type =>
    match ASTNode.to_string expr, data_type.to_string with
    | some e, some t => some ("CAST(" ++ e ++ " AS " ++ t ++ ")")
    | _, _ => none
  | ASTNode.SQLCollate expr collation =>
    match ASTNode.to_string expr with
    | some e => some (e ++ " COLLATE " ++ collation.to_string)
    | none => none
  | ASTNode.SQLNested ast =>
    match ASTNode.to_string ast with
    | some e => some ("(" ++ e ++ ")")
    | none => none
  | ASTNode.SQLUnary operator expr =>
    match ASTNode.to_string expr with
    | some e => some (operator.to_string ++ " " ++ e)
    | none => none
  | ASTNode.SQLValue v => some v.to_string
  | ASTNode.SQLFunction name args over all distinct =>
    match ASTNode.renderList args, ASTNode.renderOver over with
    | some argsS, some overS =>
      some (name.to_string ++ "(" ++ (if all then "ALL " else "") ++
        (if distinct then "DISTINCT " else "") ++ comma_separated_string argsS ++
        ")" ++ overS)
    | _, _ => none
  | ASTNode.SQLCase operand conditions results else_result =>
    match ASTNode.renderOpt " " operand, ASTNode.renderWhens conditions results,
        ASTNode.renderOpt " ELSE " else_result with
    | some opS, some whens, some elsS =>
      some ("CASE" ++ opS ++ whens ++ elsS ++ " END")
    | _, _, _ => none
  | ASTNode.SQLSubquery q => some ("(" ++ q.to_string ++ ")")
termination_by t => sizeOf t

/-- Renders each expression of a list, failing if any child render fails. -/
def ASTNode.renderList : List ASTNode → Option (List String)
  | [] => some []
  | a :: rest =>
    match ASTNode.to_string a, ASTNode.renderList rest with
    | some s, some ss => some (s :: ss)
    | _, _ => none
termination_by l => sizeOf l

/-- Renders the zipped WHEN/THEN pairs of a CASE expression, in positional
order, truncating at the shorter list as iterator zip does. -/
def ASTNode.renderWhens : List ASTNode → List ASTNode → Option String
  | c :: cs, r :: rs =>
    match ASTNode.to_string c, ASTNode.to_string r, ASTNode.renderWhens cs rs with
    | some cS, some rS, some rest => some (" WHEN " ++ cS ++ " THEN " ++ rS ++ rest)
    | _, _, _ => none
  | _, _ => some ""
termination_by cs rs => sizeOf cs + sizeOf rs

/-- Renders an optional child with a leading text, an absent child giving
the empty contribution. -/
def ASTNode.renderOpt (pre : String) : Option ASTNode → Option String
  | none => some ""
  | some a =>
    match ASTNode.to_string a with
    | some s => some (pre ++ s)
    | none => none
termination_by oa => sizeOf oa

/-- Renders the optional OVER clause of a function call. -/
def ASTNode.renderOver : Option SQLWindowSpec → Option String
  | none => some ""
  | some o =>
    match SQLWindowSpec.to_string o with
    | some s => some (" OVER (" ++ s ++ ")")
    | none => none
termination_by oo => sizeOf oo

/-- Rendering of a window specification (mod.rs lines 255-288). -/
def SQLWindowSpec.to_string : SQLWindowSpec → Option String
  | SQLWindowSpec.mk partition_by order_by window_frame =>
    (ASTNode.renderList partition_by).map (fun pbS =>
      join_with " "
        ((if partition_by.isEmpty then [] else
          ["PARTITION BY " ++ comma_separated_string pbS]) ++
         (if order_by.isEmpty then [] else
          ["ORDER BY " ++
            comma_separated_string (order_by.map SQLOrderByExpr.to_string)]) ++
         (match window_frame with
          | none => []
          | some wf =>
            match wf.end_bound with
            | some eb => [wf.units.to_string ++ " BETWEEN " ++
                wf.start_bound.to_string ++ " AND " ++ eb.to_string]
            | none => [wf.units.to_string ++ " " ++
                wf.start_bound.to_string])))
termination_by w => sizeOf w

end

/-- SQL assignment as used in SQLUpdate (mod.rs lines 642-646). -/
structure SQLAssignment where
  id : SQLIdent
  value : ASTNode

/-- Rendering of an assignment (mod.rs lines 648-652): SET id = value. -/
def SQLAssignment.to_string (a : SQLAssignment) : Option String :=
  match a.value.to_string with
  | some v => some ("SET " ++ a.id ++ " = " ++ v)
  | none => none

/-- SQL column definition (mod.rs lines 655-663). -/
structure SQLColumnDef where
  name : SQLIdent
  data_type : SQLType
  is_primary : Bool
  is_unique : Bool
  default : Option ASTNode
  allow_null : Bool

/-- Rendering of a column definition (mod.rs lines 665-682). -/
def SQLColumnDef.to_string (c : SQLColumnDef) : Option String :=
  match c.data_type.to_string, ASTNode.renderOpt " DEFAULT " c.default with
  | some t, some d =>
    some (c.name ++ " " ++ t ++ (if c.is_primary then " PRIMARY KEY" else "") ++
      (if c.is_unique then " UNIQUE" else "") ++ d ++
      (if c.allow_null then "" else " NOT NULL"))
  | _, _ => none

/-- Renders each column definition of a list. -/
def renderColumnDefs : List SQLColumnDef → Option (List String)
  | [] => some []
  | c :: rest =>
    match c.to_string, renderColumnDefs rest with
    | some s, some ss => some (s :: ss)
    | _, _ => none

/-- Renders each assignment of a list. -/
def renderAssignments : List SQLAssignment → Option (List String)
  | [] => some []
  | a :: rest =>
    match a.to_string, renderAssignments rest with
    | some s, some ss => some (s :: ss)
    | _, _ => none

/-- Renders each row of an insert statement. -/
def renderRows : List (List ASTNode) → Option (List String)
  | [] => some []
  | row :: rest =>
    match ASTNode.renderList row, renderRows rest with
    | some rs, some ss => some (comma_separated_string rs :: ss)
    | _, _ => none

/-- The schema of a data source (mod.rs lines 685-692). -/
inductive DataSourceSchema where
  | Raw (schema : String)
  | Registry (url : String)
deriving DecidableEq

/-- The payload of the three drop statements (mod.rs lines 744-750). -/
structure SQLDrop where
  if_exists : Bool
  names : List SQLObjectName
  cascade : Bool
  restrict : Bool
deriving DecidableEq

/-- SQLDrop::to_string_internal (mod.rs lines 752-767). -/
def SQLDrop.to_string_internal (d : SQLDrop) (object_type : String) : String :=
  "DROP " ++ object_type ++ (if d.if_exists then " IF EXISTS" else "") ++ " " ++
    join_with ", " (d.names.map SQLObjectName.to_string) ++
    (if d.cascade then " CASCADE" else "") ++
    (if d.restrict then " RESTRICT" else "")

/-- A name-value option as used in WITH clauses (mod.rs lines 769-773). -/
structure SQLOption where
  name : SQLIdent
  value : Value
deriving DecidableEq

/-- Rendering of an option (mod.rs lines 775-779). -/
def SQLOption.to_string (o : SQLOption) : String :=
  o.name ++ " = " ++ o.value.to_string

/-- Renders the optional WITH clause from an option list. -/
def renderWithOptions (l : List SQLOption) : String :=
  if l.isEmpty then ""
  else " WITH (" ++ comma_separated_string (l.map SQLOption.to_string) ++ ")"

/-- A top-level statement (mod.rs lines 357-447). -/
inductive SQLStatement where
  | SQLQuery (q : SQLQuery)
  | SQLInsert (table_name : SQLObjectName) (columns : List SQLIdent)
      (values : List (List ASTNode))
  | SQLCopy (table_name : SQLObjectName) (columns : List SQLIdent)
      (values : List (Option String))
  | SQLUpdate (table_name : SQLObjectName) (assignments : List SQLAssignment)
      (selection : Option ASTNode)
  | SQLDelete (table_name : SQLObjectName) (selection : Option ASTNode)
  | SQLCreateDataSource (name : SQLObjectName) (url : String)
      (schema : DataSourceSchema) (with_options : List SQLOption)
  | SQLCreateDataSink (name : SQLObjectName) (from_name : SQLObjectName)
      (url : String) (with_options : List SQLOption)
  | SQLCreateView (name : SQLObjectName) (query : SQLQuery)
      (materialized : Bool) (with_options : List SQLOption)
  | SQLCreateTable (name : SQLObjectName) (columns : List SQLColumnDef)
      (with_options : List SQLOption) (external : Bool)
      (file_format : Option FileFormat) (location : Option String)
  | SQLAlterTable (name : SQLObjectName) (operation : AlterOperation)
  | SQLDropTable (drop : SQLDrop)
  | SQLDropDataSource (drop : SQLDrop)
  | SQLDropView (drop : SQLDrop)
  | SQLPeek (name : SQLObjectName)
  | SQLTail (name : SQLObjectName)

/-- Rendering of a statement (impl ToString for SQLStatement, mod.rs 449-628).
The external create-table arm unwraps the optional file format and location,
which panics (none) when either is absent. -/
def SQLStatement.to_string : SQLStatement → Option String
  | SQLStatement.SQLQuery q => some q.to_string
  | SQLStatement.SQLInsert table_name columns values =>
    match renderRows values with
    | some rows =>
      some ("INSERT INTO " ++ table_name.to_string ++
        (if columns.isEmpty then "" else
          " (" ++ join_with ", " columns ++ ")") ++
        (if values.isEmpty then "" else
          " VALUES(" ++ join_with ", " rows ++ ")"))
    | none => none
  | SQLStatement.SQLCopy table_name columns values =>
    some ("COPY " ++ table_name.to_string ++
      (if columns.isEmpty then "" else
        " (" ++ comma_separated_string columns ++ ")") ++
      " FROM stdin; " ++
      (if values.isEmpty then "" else
        "\n" ++ join_with "\t"
          (values.map (fun v => v.getD "\\N"))) ++
      "\n\\.")
  | SQLStatement.SQLUpdate table_name assignments selection =>
    match renderAssignments assignments, ASTNode.renderOpt " WHERE " selection with
    | some asgn, some sel =>
      some ("UPDATE " ++ table_name.to_string ++
        (if assignments.isEmpty then "" else comma_separated_string asgn) ++ sel)
    | _, _ => none
  | SQLStatement.SQLDelete table_name selection =>
    match ASTNode.renderOpt " WHERE " selection with
    | some sel => some ("DELETE FROM " ++ table_name.to_string ++ sel)
    | none => none
  | SQLStatement.SQLCreateDataSource name url schema with_options =>
    some ("CREATE DATA SOURCE " ++ name.to_string ++ " FROM " ++
      (Value.SingleQuotedString url).to_string ++ " USING SCHEMA " ++
      (match schema with
       | DataSourceSchema.Raw s => (Value.SingleQuotedString s).to_string
       | DataSourceSchema.Registry u =>
         "REGISTRY " ++ (Value.SingleQuotedString u).to_string) ++
      renderWithOptions with_options)
  | SQLStatement.SQLCreateDataSink name from_name url with_options =>
    some ("CREATE DATA SINK " ++ name.to_string ++ " FROM " ++ from_name.to_string ++
      " INTO " ++ (Value.SingleQuotedString url).to_string ++
      renderWithOptions with_options)
  | SQLStatement.SQLCreateView name query materialized with_options =>
    some ("CREATE" ++ (if materialized then " MATERIALIZED" else "") ++
      " VIEW " ++ name.to_string ++ renderWithOptions with_options ++ " AS " ++
      query.to_string)
  | SQLStatement.SQLCreateTable name columns with_options external file_format
      location =>
    match renderColumnDefs columns with
    | none => none
    | some cols =>
      if external then
        match file_format, location with
        | some f, some l =>
          some ("CREATE EXTERNAL TABLE " ++ name.to_string ++ " (" ++
            comma_separated_string cols ++ ") STORED AS " ++ f.to_string ++
            " LOCATION \x27" ++ l ++ "\x27")
        | _, _ => none
      else
        some ("CREATE TABLE " ++ name.to_string ++ " (" ++
          comma_separated_string cols ++ ")" ++ renderWithOptions with_options)
  | SQLStatement.SQLDropTable drop => some (drop.to_string_internal "TABLE")
  | SQLStatement.SQLDropDataSource drop =>
    some (drop.to_string_internal "DATA SOURCE")
  | SQLStatement.SQLDropView drop => some (drop.to_string_internal "VIEW")
  | SQLStatement.SQLAlterTable name operation =>
    some ("ALTER TABLE " ++ name.to_string ++ " " ++ operation.to_string)
  | SQLStatement.SQLPeek name => some ("PEEK " ++ name.to_string)
  | SQLStatement.SQLTail name => some ("TAIL " ++ name.to_string)

/-- Well-formedness of an object name: a non-empty sequence of non-empty
identifiers, as required by the data model. -/
def SQLObjectName.wf (n : SQLObjectName) : Bool :=
  !n.parts.isEmpty && n.parts.all (fun p => p != "")

/-- Well-formedness of a type: a decimal scale requires a precision, and
custom type names are well-formed object names. -/
def SQLType.wf : SQLType → Bool
  | SQLType.Decimal precision scale => !scale.isSome || precision.isSome
  | SQLType.Custom name => name.wf
  | SQLType.Array ty => SQLType.wf ty
  | _ => true

mutual

/-- Well-formedness of an expression: identifiers and identifier sequences
are non-empty, external sub-model values render to non-empty text, decimal
types respect the scale-requires-precision invariant, and the CASE condition
and result sequences have equal length. -/
def ASTNode.wf : ASTNode → Bool
  | ASTNode.SQLIdentifier s => s != ""
  | ASTNode.SQLWildcard => true
  | ASTNode.SQLQualifiedWildcard q => !q.isEmpty && q.all (fun p => p != "")
  | ASTNode.SQLCompoundIdentifier q => !q.isEmpty && q.all (fun p => p != "")
  | ASTNode.SQLIsNull a => ASTNode.wf a
  | ASTNode.SQLIsNotNull a => ASTNode.wf a
  | ASTNode.SQLInList e l _ => ASTNode.wf e && ASTNode.wfList l
  | ASTNode.SQLInSubquery e q _ => ASTNode.wf e && (q.rendered != "")
  | ASTNode.SQLBetween e _ l h => ASTNode.wf e && ASTNode.wf l && ASTNode.wf h
  | ASTNode.SQLBinaryExpr l _ r => ASTNode.wf l && ASTNode.wf r
  | ASTNode.SQLCast e t => ASTNode.wf e && t.wf
  | ASTNode.SQLCollate e c => ASTNode.wf e && c.wf
  | ASTNode.SQLNested a => ASTNode.wf a
  | ASTNode.SQLUnary _ e => ASTNode.wf e
  | ASTNode.SQLValue v => v.rendered != ""
  | ASTNode.SQLFunction name args over _ _ =>
    name.wf && ASTNode.wfList args && ASTNode.wfOver over
  | ASTNode.SQLCase op conds res els =>
    ASTNode.wfOpt op && ASTNode.wfList conds && ASTNode.wfList res &&
      ASTNode.wfOpt els && (conds.length == res.length)
  | ASTNode.SQLSubquery q => q.rendered != ""
termination_by t => sizeOf t

/-- Well-formedness of every expression of a list. -/
def ASTNode.wfList : List ASTNode → Bool
  | [] => true
  | a :: rest => ASTNode.wf a && ASTNode.wfList rest
termination_by l => sizeOf l

/-- Well-formedness of an optional expression. -/
def ASTNode.wfOpt : Option ASTNode → Bool
  | none => true
  | some a => ASTNode.wf a
termination_by oa => sizeOf oa

/-- Well-formedness of an optional window specification. -/
def ASTNode.wfOver : Option SQLWindowSpec → Bool
  | none => true
  | some w => SQLWindowSpec.wf w
termination_by oo => sizeOf oo

/-- Well-formedness of a window specification. -/
def SQLWindowSpec.wf : SQLWindowSpec → Bool
  | SQLWindowSpec.mk pb _ _ => ASTNode.wfList pb
termination_by w => sizeOf w

end

/-- Well-formedness of a column definition. -/
def SQLColumnDef.wf (c : SQLColumnDef) : Bool :=
  (c.name != "") && c.data_type.wf && ASTNode.wfOpt c.default

/-- Well-formedness of a statement: object names are well-formed, child
expressions are well-formed, the drop name list is non-empty, and an
external create-table statement carries its file format and location, as
the data-model invariants require. -/
def SQLStatement.wf : SQLStatement → Bool
  | SQLStatement.SQLQuery q => q.rendered != ""
  | SQLStatement.SQLInsert n _ vals =>
    n.wf && vals.all (fun row => ASTNode.wfList row)
  | SQLStatement.SQLCopy n _ _ => n.wf
  | SQLStatement.SQLUpdate n asgn sel =>
    n.wf && asgn.all (fun a => ASTNode.wf a.value) && ASTNode.wfOpt sel
  | SQLStatement.SQLDelete n sel => n.wf && ASTNode.wfOpt sel
  | SQLStatement.SQLCreateDataSource n _ _ _ => n.wf
  | SQLStatement.SQLCreateDataSink n f _ _ => n.wf && f.wf
  | SQLStatement.SQLCreateView n _ _ _ => n.wf
  | SQLStatement.SQLCreateTable n cols _ ext ff loc =>
    n.wf && cols.all SQLColumnDef.wf && (!ext || (ff.isSome && loc.isSome))
  | SQLStatement.SQLAlterTable n _ => n.wf
  | SQLStatement.SQLDropTable d => !d.names.isEmpty && d.names.all SQLObjectName.wf
  | SQLStatement.SQLDropDataSource d =>
    !d.names.isEmpty && d.names.all SQLObjectName.wf
  | SQLStatement.SQLDropView d => !d.names.isEmpty && d.names.all SQLObjectName.wf
  | SQLStatement.SQLPeek n => n.wf
  | SQLStatement.SQLTail n => n.wf

/-- The WHEN/THEN text of a CASE expression assembled from the rendered
conditions and results, positionally paired, truncating at the shorter. -/
def whens_text : List String → List String → String
  | c :: cs, r :: rs => " WHEN " ++ c ++ " THEN " ++ r ++ whens_text cs rs
  | _, _ => ""

theorem ne_empty_of_append_left {a : String} (b : String) (h : a ≠ "") :
    a ++ b ≠ "" := by
  intro hc
  have hd : (a ++ b).data = ([] : List Char) := congrArg String.data hc
  rw [String.data_append] at hd
  exact h (String.ext_iff.mpr (List.append_eq_nil.mp hd).1)

theorem ne_empty_of_append_right (a : String) {b : String} (h : b ≠ "") :
    a ++ b ≠ "" := by
  intro hc
  have hd : (a ++ b).data = ([] : List Char) := congrArg String.data hc
  rw [String.data_append] at hd
  exact h (String.ext_iff.mpr (List.append_eq_nil.mp hd).2)

theorem join_with_ne_empty (sep : String) {p : String} (rest : List String)
    (h : p ≠ "") : join_with sep (p :: rest) ≠ "" := by
  cases rest with
  | nil => simpa [join_with] using h
  | cons y r =>
    rw [join_with]
    exact ne_empty_of_append_left _ (ne_empty_of_append_left _ h)

end SqlAst

namespace SqlAst

/-- Claim C2: the file-format renderer maps every variant to its own
uppercase keyword verbatim, except the JSON-file variant, which renders the
keyword TEXTFILE, so the JSON-file and text-file variants render to the
same string. -/
theorem file_format_render_keywords :
    FileFormat.to_string FileFormat.TEXTFILE = "TEXTFILE" ∧
    FileFormat.to_string FileFormat.SEQUENCEFILE = "SEQUENCEFILE" ∧
    FileFormat.to_string FileFormat.ORC = "ORC" ∧
    FileFormat.to_string FileFormat.PARQUET = "PARQUET" ∧
    FileFormat.to_string FileFormat.AVRO = "AVRO" ∧
    FileFormat.to_string FileFormat.RCFILE = "RCFILE" ∧
    FileFormat.to_string FileFormat.JSONFILE = "TEXTFILE" ∧
    FileFormat.to_string FileFormat.JSONFILE =
      FileFormat.to_string FileFormat.TEXTFILE :=
  ⟨rfl, rfl, rfl, rfl, rfl, rfl, rfl, rfl⟩

/-- Claim C4: rendering a decimal type with precision and scale present
produces numeric(precision,scale); with scale absent it produces numeric or
numeric(precision); a scale without a precision is the fatal precision
unwrap, and the abort branch is taken exactly when a scale is present
without a precision. -/
theorem decimal_render_spec :
    (∀ p s : Nat, SQLType.to_string (SQLType.Decimal (some p) (some s)) =
      some ("numeric(" ++ toString p ++ "," ++ toString s ++ ")")) ∧
    SQLType.to_string (SQLType.Decimal none none) = some "numeric" ∧
    (∀ p : Nat, SQLType.to_string (SQLType.Decimal (some p) none) =
      some ("numeric(" ++ toString p ++ ")")) ∧
    (∀ s : Nat, SQLType.to_string (SQLType.Decimal none (some s)) = none) ∧
    (∀ p s : Option Nat, (SQLType.to_string (SQLType.Decimal p s)).isSome =
      (!s.isSome || p.isSome)) := by
  refine ⟨fun p s => rfl, rfl, fun p => rfl, fun s => rfl, fun p s => ?_⟩
  cases s <;> cases p <;> rfl

/-- Claim C3: given the external parser, which re-reads rendered text to the
statement it came from, rendering is a faithful inverse of parsing for
canonical forms: re-rendering the parse of canonical text reproduces that
text exactly (exact equality, which entails whitespace-insensitive
equivalence). -/
theorem render_roundtrip (parse : String → SQLStatement) (s : SQLStatement)
    (out : String) (hrender : SQLStatement.to_string s = some out)
    (hparse : parse out = s) :
    SQLStatement.to_string (parse out) = some out := by
  rw [hparse, hrender]

theorem render_roundtrip_witness :
    SQLStatement.to_string
      ((fun _ => SQLStatement.SQLPeek ⟨["t"]⟩) "PEEK t") = some "PEEK t" :=
  render_roundtrip (fun _ => SQLStatement.SQLPeek ⟨["t"]⟩)
    (SQLStatement.SQLPeek ⟨["t"]⟩) "PEEK t" rfl rfl

/-- Claim C7: a bulk-copy statement renders COPY name, a parenthesized
column list when non-empty, the text FROM stdin with a trailing space, a
newline plus the tab-joined values when any are given with an absent scalar
rendered as the two-character null marker, and a final newline plus the
terminator; in particular the row with an absent value then the value x
yields that data line. -/
theorem copy_render_spec :
    (∀ (name : SQLObjectName) (cols : List SQLIdent)
      (vals : List (Option String)),
      SQLStatement.to_string (SQLStatement.SQLCopy name cols vals) =
        some ("COPY " ++ name.to_string ++
          (if cols.isEmpty then "" else
            " (" ++ comma_separated_string cols ++ ")") ++
          " FROM stdin; " ++
          (if vals.isEmpty then "" else
            "\n" ++ join_with "\t" (vals.map (fun v => v.getD "\\N"))) ++
          "\n\\.")) ∧
    join_with "\t" (([none, some "x"] : List (Option String)).map
      (fun v => v.getD "\\N")) = "\\N\tx" ∧
    ("\\N" : String).length = 2 :=
  ⟨fun name cols vals => rfl, rfl, rfl⟩

/-- Claim C1: an external create-table statement whose file format and
location are both present renders to exactly the CREATE EXTERNAL TABLE text
with the column definitions, STORED AS format and quoted LOCATION; when
either field is absent the render is the fatal unwrap, modelled as none
rather than any returned text. -/
theorem create_table_external_render (name : SQLObjectName)
    (cols : List SQLColumnDef) (wo : List SQLOption) (colsS : List String)
    (f : FileFormat) (l : String)
    (hcols : renderColumnDefs cols = some colsS) :
    SQLStatement.to_string
        (SQLStatement.SQLCreateTable name cols wo true (some f) (some l)) =
      some ("CREATE EXTERNAL TABLE " ++ name.to_string ++ " (" ++
        comma_separated_string colsS ++ ") STORED AS " ++ f.to_string ++
        " LOCATION \x27" ++ l ++ "\x27") ∧
    (∀ (ff : Option FileFormat) (loc : Option String), ff = none ∨ loc = none →
      SQLStatement.to_string
        (SQLStatement.SQLCreateTable name cols wo true ff loc) = none) := by
  constructor
  · simp [SQLStatement.to_string, hcols]
  · intro ff loc h
    cases ff <;> cases loc <;>
      simp_all [SQLStatement.to_string, hcols]

theorem create_table_external_render_witness :
    SQLStatement.to_string (SQLStatement.SQLCreateTable ⟨["t"]⟩ [] [] true
        (some FileFormat.PARQUET) (some "/d")) =
      some "CREATE EXTERNAL TABLE t () STORED AS PARQUET LOCATION \x27/d\x27" ∧
    SQLStatement.to_string
      (SQLStatement.SQLCreateTable ⟨["t"]⟩ [] [] true none (some "/d")) =
        none := by
  have h := create_table_external_render ⟨["t"]⟩ [] [] [] FileFormat.PARQUET
    "/d" rfl
  exact ⟨by rw [h.1]; rfl, h.2 none (some "/d") (Or.inl rfl)⟩

/-- Claim C5: each of the two leaf-enum keyword parsers returns the
corresponding variant exactly on its uppercase keywords, case-sensitively,
and on any other input returns a typed parse error whose message carries the
offending token. -/
theorem leaf_enum_from_str_spec :
    SQLWindowFrameUnits.from_str "ROWS" = Except.ok SQLWindowFrameUnits.Rows ∧
    SQLWindowFrameUnits.from_str "RANGE" = Except.ok SQLWindowFrameUnits.Range ∧
    SQLWindowFrameUnits.from_str "GROUPS" =
      Except.ok SQLWindowFrameUnits.Groups ∧
    FileFormat.from_str "TEXTFILE" = Except.ok FileFormat.TEXTFILE ∧
    FileFormat.from_str "SEQUENCEFILE" = Except.ok FileFormat.SEQUENCEFILE ∧
    FileFormat.from_str "ORC" = Except.ok FileFormat.ORC ∧
    FileFormat.from_str "PARQUET" = Except.ok FileFormat.PARQUET ∧
    FileFormat.from_str "AVRO" = Except.ok FileFormat.AVRO ∧
    FileFormat.from_str "RCFILE" = Except.ok FileFormat.RCFILE ∧
    FileFormat.from_str "JSONFILE" = Except.ok FileFormat.JSONFILE ∧
    (∀ s : String, s ∉ ["ROWS", "RANGE", "GROUPS"] →
      SQLWindowFrameUnits.from_str s = Except.error (ParserError.ParserError
        ("Expected ROWS, RANGE, or GROUPS, found: " ++ s))) ∧
    (∀ s : String, s ∉ ["TEXTFILE", "SEQUENCEFILE", "ORC", "PARQUET", "AVRO",
        "RCFILE", "JSONFILE"] →
      FileFormat.from_str s = Except.error (ParserError.ParserError
        ("Unexpected file format: " ++ s))) := by
  refine ⟨rfl, rfl, rfl, rfl, rfl, rfl, rfl, rfl, rfl, rfl, ?_, ?_⟩
  · intro s hu
    simp only [List.mem_cons, List.not_mem_nil, or_false, not_or] at hu
    rw [SQLWindowFrameUnits.from_str, if_neg hu.1, if_neg hu.2.1,
      if_neg hu.2.2]
  · intro s hf
    simp only [List.mem_cons, List.not_mem_nil, or_false, not_or] at hf
    rw [FileFormat.from_str, if_neg hf.1, if_neg hf.2.1, if_neg hf.2.2.1,
      if_neg hf.2.2.2.1, if_neg hf.2.2.2.2.1, if_neg hf.2.2.2.2.2.1,
      if_neg hf.2.2.2.2.2.2]

theorem leaf_enum_from_str_spec_witness :
    SQLWindowFrameUnits.from_str "TEXTFILE" =
      Except.error (ParserError.ParserError
        "Expected ROWS, RANGE, or GROUPS, found: TEXTFILE") ∧
    FileFormat.from_str "ROWS" = Except.error (ParserError.ParserError
      "Unexpected file format: ROWS") := by
  exact ⟨leaf_enum_from_str_spec.2.2.2.2.2.2.2.2.2.2.1 "TEXTFILE" (by decide),
    leaf_enum_from_str_spec.2.2.2.2.2.2.2.2.2.2.2 "ROWS" (by decide)⟩

/-- Claim C8: a column definition renders as its name, a space and its type,
then PRIMARY KEY when the primary flag is set, UNIQUE when the unique flag
is set, DEFAULT with the expression when a default is present, and NOT NULL
exactly when the nullability flag is false. -/
theorem column_def_render (name : SQLIdent) (dt : SQLType) (tS : String)
    (prim uniq : Bool) (dflt : Option ASTNode) (dS : String) (an : Bool)
    (ht : dt.to_string = some tS)
    (hd : ASTNode.renderOpt " DEFAULT " dflt = some dS) :
    SQLColumnDef.to_string ⟨name, dt, prim, uniq, dflt, an⟩ =
      some (name ++ " " ++ tS ++ (if prim then " PRIMARY KEY" else "") ++
        (if uniq then " UNIQUE" else "") ++ dS ++
        (if an then "" else " NOT NULL")) ∧
    ASTNode.renderOpt " DEFAULT " none = some "" ∧
    (∀ (e : ASTNode) (eS : String), ASTNode.to_string e = some eS →
      ASTNode.renderOpt " DEFAULT " (some e) = some (" DEFAULT " ++ eS)) := by
  refine ⟨?_, by simp [ASTNode.renderOpt], ?_⟩
  · simp [SQLColumnDef.to_string, ht, hd]
  · intro e eS he
    simp [ASTNode.renderOpt, he]

theorem column_def_render_witness :
    SQLColumnDef.to_string ⟨"c", SQLType.Int, true, false, none, false⟩ =
      some "c int PRIMARY KEY NOT NULL" := by
  have h := column_def_render "c" SQLType.Int "int" true false none "" false
    rfl (by simp [ASTNode.renderOpt])
  rw [h.1]
  rfl

/-- Claim C10: an update statement with a non-empty assignment list renders
UPDATE and the table name immediately followed, with no separating space, by
the comma-joined assignments, each rendered as SET id = value so the SET
keyword repeats per assignment, then WHERE and the selection when present. -/
theorem update_render (name : SQLObjectName) (a1 : SQLAssignment)
    (rest : List SQLAssignment) (asgnS : List String) (sel : Option ASTNode)
    (selS : String)
    (ha : renderAssignments (a1 :: rest) = some asgnS)
    (hs : ASTNode.renderOpt " WHERE " sel = some selS) :
    SQLStatement.to_string (SQLStatement.SQLUpdate name (a1 :: rest) sel) =
      some ("UPDATE " ++ name.to_string ++ comma_separated_string asgnS ++
        selS) ∧
    (∀ (id : SQLIdent) (v : ASTNode) (vS : String),
      ASTNode.to_string v = some vS →
      SQLAssignment.to_string ⟨id, v⟩ = some ("SET " ++ id ++ " = " ++ vS)) ∧
    (∀ (e : ASTNode) (eS : String), ASTNode.to_string e = some eS →
      ASTNode.renderOpt " WHERE " (some e) = some (" WHERE " ++ eS)) ∧
    ASTNode.renderOpt " WHERE " none = some "" := by
  refine ⟨?_, ?_, ?_, by simp [ASTNode.renderOpt]⟩
  · simp [SQLStatement.to_string, ha, hs]
  · intro id v vS hv
    simp [SQLAssignment.to_string, hv]
  · intro e eS he
    simp [ASTNode.renderOpt, he]

theorem update_render_witness :
    SQLStatement.to_string (SQLStatement.SQLUpdate ⟨["t"]⟩
        [⟨"a", ASTNode.SQLIdentifier "1"⟩] none) =
      some "UPDATE tSET a = 1" := by
  have h := update_render ⟨["t"]⟩ ⟨"a", ASTNode.SQLIdentifier "1"⟩ []
    ["SET a = 1"] none ""
    (by simp [renderAssignments, SQLAssignment.to_string, ASTNode.to_string])
    (by simp [ASTNode.renderOpt])
  rw [h.1]
  rfl

theorem renderWhens_eq (conds : List ASTNode) :
    ∀ (res : List ASTNode) (cs rs : List String),
    ASTNode.renderList conds = some cs → ASTNode.renderList res = some rs →
    ASTNode.renderWhens conds res = some (whens_text cs rs) := by
  induction conds with
  | nil =>
    intro res cs rs hc hr
    simp [ASTNode.renderList] at hc
    subst hc
    cases res <;> simp [ASTNode.renderWhens, whens_text]
  | cons c cst ih =>
    intro res cs rs hc hr
    rw [ASTNode.renderList] at hc
    cases he : ASTNode.to_string c with
    | none => rw [he] at hc; simp at hc
    | some cS =>
      rw [he] at hc
      cases hcs : ASTNode.renderList cst with
      | none => rw [hcs] at hc; simp at hc
      | some csS =>
        rw [hcs] at hc
        simp at hc
        subst hc
        cases res with
        | nil =>
          simp [ASTNode.renderList] at hr
          subst hr
          simp [ASTNode.renderWhens, whens_text]
        | cons r rst =>
          rw [ASTNode.renderList] at hr
          cases hrr : ASTNode.to_string r with
          | none => rw [hrr] at hr; simp at hr
          | some rS =>
            rw [hrr] at hr
            cases hrs : ASTNode.renderList rst with
            | none => rw [hrs] at hr; simp at hr
            | some rsS =>
              rw [hrs] at hr
              simp at hr
              subst hr
              rw [ASTNode.renderWhens, he, hrr, ih rst csS rsS hcs hrs]
              simp [whens_text]

/-- Claim C6: every CASE expression renders the token CASE, then a space and
the operand when present, then for each positionally paired condition and
result the text WHEN condition THEN result in order, then ELSE and the
else-result when present, then END; the optional operand and else-result
contributions are characterized generically so every combination of present
and absent options is covered, and conditions A, B with results X, Y render
CASE WHEN A THEN X WHEN B THEN Y END. -/
theorem case_render_spec (op : Option ASTNode) (opS : String)
    (conds res : List ASTNode) (cs rs : List String)
    (els : Option ASTNode) (elsS : String)
    (hop : ASTNode.renderOpt " " op = some opS)
    (hc : ASTNode.renderList conds = some cs)
    (hr : ASTNode.renderList res = some rs)
    (hels : ASTNode.renderOpt " ELSE " els = some elsS) :
    ASTNode.to_string (ASTNode.SQLCase op conds res els) =
      some ("CASE" ++ opS ++ whens_text cs rs ++ elsS ++ " END") ∧
    ASTNode.renderOpt " " (none : Option ASTNode) = some "" ∧
    (∀ (o : ASTNode) (oS : String), ASTNode.to_string o = some oS →
      ASTNode.renderOpt " " (some o) = some (" " ++ oS)) ∧
    ASTNode.renderOpt " ELSE " (none : Option ASTNode) = some "" ∧
    (∀ (e : ASTNode) (eS : String), ASTNode.to_string e = some eS →
      ASTNode.renderOpt " ELSE " (some e) = some (" ELSE " ++ eS)) ∧
    ASTNode.to_string (ASTNode.SQLCase none
        [ASTNode.SQLIdentifier "A", ASTNode.SQLIdentifier "B"]
        [ASTNode.SQLIdentifier "X", ASTNode.SQLIdentifier "Y"] none) =
      some "CASE WHEN A THEN X WHEN B THEN Y END" := by
  refine ⟨?_, by simp [ASTNode.renderOpt], ?_, by simp [ASTNode.renderOpt],
    ?_, ?_⟩
  · rw [ASTNode.to_string, hop, hels,
      renderWhens_eq conds res cs rs hc hr]
  · intro o oS ho
    simp [ASTNode.renderOpt, ho]
  · intro e eS he
    simp [ASTNode.renderOpt, he]
  · rw [ASTNode.to_string,
      renderWhens_eq [ASTNode.SQLIdentifier "A", ASTNode.SQLIdentifier "B"]
        [ASTNode.SQLIdentifier "X", ASTNode.SQLIdentifier "Y"] ["A", "B"]
        ["X", "Y"]
        (by simp [ASTNode.renderList, ASTNode.to_string])
        (by simp [ASTNode.renderList, ASTNode.to_string])]
    simp [ASTNode.renderOpt, whens_text]

theorem case_render_spec_witness :
    ASTNode.to_string (ASTNode.SQLCase (some (ASTNode.SQLIdentifier "o"))
        [ASTNode.SQLIdentifier "A"] [ASTNode.SQLIdentifier "X"] none) =
      some ("CASE" ++ " o" ++ whens_text ["A"] ["X"] ++ "" ++ " END") :=
  (case_render_spec (some (ASTNode.SQLIdentifier "o")) " o"
    [ASTNode.SQLIdentifier "A"] [ASTNode.SQLIdentifier "X"] ["A"] ["X"]
    none ""
    (by simp [ASTNode.renderOpt, ASTNode.to_string])
    (by simp [ASTNode.renderList, ASTNode.to_string])
    (by simp [ASTNode.renderList, ASTNode.to_string])
    (by simp [ASTNode.renderOpt])).1

theorem format_type_ne_empty (name : String) (len : Option Nat)
    (h : name ≠ "") : format_type_with_optional_length name len ≠ "" := by
  cases len with
  | none => simpa [format_type_with_optional_length] using h
  | some l =>
    rw [format_type_with_optional_length]
    exact ne_empty_of_append_right _ (by decide)

theorem object_name_render_ne_empty (n : SQLObjectName) (h : n.wf = true) :
    n.to_string ≠ "" := by
  simp [SQLObjectName.wf] at h
  obtain ⟨h1, h2⟩ := h
  rw [SQLObjectName.to_string]
  cases hp : n.parts with
  | nil => exact absurd hp h1
  | cons p rest =>
    exact join_with_ne_empty "." rest (h2 p (hp ▸ List.mem_cons_self p rest))

theorem type_render_ne_empty (ty : SQLType) (hwf : ty.wf = true)
    (out : String) (hout : ty.to_string = some out) : out ≠ "" := by
  cases ty with
  | Char size =>
    simp [SQLType.to_string] at hout
    exact hout ▸ format_type_ne_empty _ _ (by decide)
  | Varchar size =>
    simp [SQLType.to_string] at hout
    exact hout ▸ format_type_ne_empty _ _ (by decide)
  | Uuid => simp [SQLType.to_string] at hout; exact hout ▸ (by decide)
  | Clob size =>
    simp [SQLType.to_string] at hout
    exact hout ▸ ne_empty_of_append_right _ (by decide)
  | Binary size =>
    simp [SQLType.to_string] at hout
    exact hout ▸ ne_empty_of_append_right _ (by decide)
  | Varbinary size =>
    simp [SQLType.to_string] at hout
    exact hout ▸ ne_empty_of_append_right _ (by decide)
  | Blob size =>
    simp [SQLType.to_string] at hout
    exact hout ▸ ne_empty_of_append_right _ (by decide)
  | Decimal precision scale =>
    cases scale with
    | none =>
      simp [SQLType.to_string] at hout
      exact hout ▸ format_type_ne_empty _ _ (by decide)
    | some sc =>
      cases precision with
      | none => simp [SQLType.to_string] at hout
      | some p =>
        simp [SQLType.to_string] at hout
        exact hout ▸ ne_empty_of_append_right _ (by decide)
  | Float size =>
    simp [SQLType.to_string] at hout
    exact hout ▸ format_type_ne_empty _ _ (by decide)
  | SmallInt => simp [SQLType.to_string] at hout; exact hout ▸ (by decide)
  | Int => simp [SQLType.to_string] at hout; exact hout ▸ (by decide)
  | BigInt => simp [SQLType.to_string] at hout; exact hout ▸ (by decide)
  | Real => simp [SQLType.to_string] at hout; exact hout ▸ (by decide)
  | Double => simp [SQLType.to_string] at hout; exact hout ▸ (by decide)
  | Boolean => simp [SQLType.to_string] at hout; exact hout ▸ (by decide)
  | Date => simp [SQLType.to_string] at hout; exact hout ▸ (by decide)
  | Time => simp [SQLType.to_string] at hout; exact hout ▸ (by decide)
  | Timestamp => simp [SQLType.to_string] at hout; exact hout ▸ (by decide)
  | Regclass => simp [SQLType.to_string] at hout; exact hout ▸ (by decide)
  | Text => simp [SQLType.to_string] at hout; exact hout ▸ (by decide)
  | Bytea => simp [SQLType.to_string] at hout; exact hout ▸ (by decide)
  | Custom name =>
    simp [SQLType.to_string] at hout
    simp [SQLType.wf] at hwf
    exact hout ▸ object_name_render_ne_empty name hwf
  | Array ety =>
    rw [SQLType.to_string] at hout
    cases he : SQLType.to_string ety with
    | none => rw [he] at hout; simp at hout
    | some t =>
      rw [he] at hout
      simp at hout
      exact hout ▸ ne_empty_of_append_right _ (by decide)

theorem ast_render_ne_empty (t : ASTNode) (hwf : t.wf = true)
    (out : String) (hout : t.to_string = some out) : out ≠ "" := by
  cases t with
  | SQLIdentifier s =>
    simp [ASTNode.to_string] at hout
    simp [ASTNode.wf] at hwf
    exact hout ▸ hwf
  | SQLWildcard =>
    simp [ASTNode.to_string] at hout
    exact hout ▸ (by decide)
  | SQLQualifiedWildcard q =>
    simp [ASTNode.to_string] at hout
    exact hout ▸ ne_empty_of_append_right _ (by decide)
  | SQLCompoundIdentifier q =>
    simp [ASTNode.to_string] at hout
    simp [ASTNode.wf] at hwf
    obtain ⟨h1, h2⟩ := hwf
    cases hq : q with
    | nil => exact absurd hq h1
    | cons p rest =>
      subst hq
      exact hout ▸ join_with_ne_empty "." rest (h2 p (List.mem_cons_self p rest))
  | SQLIsNull a =>
    rw [ASTNode.to_string] at hout
    split at hout
    · simp at hout
      exact hout ▸ ne_empty_of_append_right _ (by decide)
    · simp at hout
  | SQLIsNotNull a =>
    rw [ASTNode.to_string] at hout
    split at hout
    · simp at hout
      exact hout ▸ ne_empty_of_append_right _ (by decide)
    · simp at hout
  | SQLInList e l neg =>
    rw [ASTNode.to_string] at hout
    split at hout
    · simp at hout
      exact hout ▸ ne_empty_of_append_right _ (by decide)
    · simp at hout
  | SQLInSubquery e q neg =>
    rw [ASTNode.to_string] at hout
    split at hout
    · simp at hout
      exact hout ▸ ne_empty_of_append_right _ (by decide)
    · simp at hout
  | SQLBetween e neg lo hi =>
    rw [ASTNode.to_string] at hout
    split at hout
    · simp at hout
      exact hout ▸ ne_empty_of_append_left _ (ne_empty_of_append_right _
        (by decide))
    · simp at hout
  | SQLBinaryExpr l op r =>
    rw [ASTNode.to_string] at hout
    split at hout
    · simp at hout
      exact hout ▸ ne_empty_of_append_left _ (ne_empty_of_append_right _
        (by decide))
    · simp at hout
  | SQLCast e dt =>
    rw [ASTNode.to_string] at hout
    split at hout
    · simp at hout
      exact hout ▸ ne_empty_of_append_right _ (by decide)
    · simp at hout
  | SQLCollate e c =>
    rw [ASTNode.to_string] at hout
    split at hout
    · simp at hout
      exact hout ▸ ne_empty_of_append_left _ (ne_empty_of_append_right _
        (by decide))
    · simp at hout
  | SQLNested a =>
    rw [ASTNode.to_string] at hout
    split at hout
    · simp at hout
      exact hout ▸ ne_empty_of_append_right _ (by decide)
    · simp at hout
  | SQLUnary op e =>
    rw [ASTNode.to_string] at hout
    split at hout
    · simp at hout
      exact hout ▸ ne_empty_of_append_left _ (ne_empty_of_append_right _
        (by decide))
    · simp at hout
  | SQLValue v =>
    simp [ASTNode.to_string] at hout
    simp [ASTNode.wf] at hwf
    exact hout ▸ hwf
  | SQLFunction name args over all distinct =>
    rw [ASTNode.to_string] at hout
    split at hout
    · simp at hout
      exact hout ▸ ne_empty_of_append_left _ (ne_empty_of_append_right _
        (by decide))
    · simp at hout
  | SQLCase op conds res els =>
    rw [ASTNode.to_string] at hout
    split at hout
    · simp at hout
      exact hout ▸ ne_empty_of_append_right _ (by decide)
    · simp at hout
  | SQLSubquery q =>
    simp [ASTNode.to_string] at hout
    exact hout ▸ ne_empty_of_append_right _ (by decide)

theorem drop_render_ne_empty (d : SQLDrop) (object_type : String) :
    d.to_string_internal object_type ≠ "" := by
  rw [SQLDrop.to_string_internal]
  exact ne_empty_of_append_left _ (ne_empty_of_append_left _
    (ne_empty_of_append_left _ (ne_empty_of_append_left _
      (ne_empty_of_append_left _ (ne_empty_of_append_left _ (by decide))))))

theorem stmt_render_ne_empty (st : SQLStatement) (hwf : st.wf = true)
    (out : String) (hout : st.to_string = some out) : out ≠ "" := by
  cases st with
  | SQLQuery q =>
    simp [SQLStatement.to_string] at hout
    simp [SQLStatement.wf] at hwf
    exact hout ▸ hwf
  | SQLInsert name cols vals =>
    rw [SQLStatement.to_string] at hout
    split at hout
    · simp at hout
      exact hout ▸ ne_empty_of_append_left _ (ne_empty_of_append_left _
        (ne_empty_of_append_left _ (by decide)))
    · simp at hout
  | SQLCopy name cols vals =>
    simp only [SQLStatement.to_string] at hout
    simp at hout
    exact hout ▸ ne_empty_of_append_right _ (by decide)
  | SQLUpdate name asgn sel =>
    rw [SQLStatement.to_string] at hout
    split at hout
    · simp at hout
      exact hout ▸ ne_empty_of_append_left _ (ne_empty_of_append_left _
        (ne_empty_of_append_left _ (by decide)))
    · simp at hout
  | SQLDelete name sel =>
    rw [SQLStatement.to_string] at hout
    split at hout
    · simp at hout
      exact hout ▸ ne_empty_of_append_left _ (ne_empty_of_append_left _
        (by decide))
    · simp at hout
  | SQLCreateDataSource name url schema wo =>
    simp only [SQLStatement.to_string] at hout
    simp at hout
    exact hout ▸ ne_empty_of_append_left _ (ne_empty_of_append_left _
      (ne_empty_of_append_left _ (ne_empty_of_append_left _
        (ne_empty_of_append_left _ (ne_empty_of_append_left _ (by decide))))))
  | SQLCreateDataSink name f url wo =>
    simp only [SQLStatement.to_string] at hout
    simp at hout
    exact hout ▸ ne_empty_of_append_left _ (ne_empty_of_append_left _
      (ne_empty_of_append_left _ (ne_empty_of_append_left _
        (ne_empty_of_append_left _ (ne_empty_of_append_left _ (by decide))))))
  | SQLCreateView name q mat wo =>
    simp only [SQLStatement.to_string] at hout
    simp at hout
    exact hout ▸ ne_empty_of_append_left _ (ne_empty_of_append_right _
      (by decide))
  | SQLCreateTable name cols wo ext ff loc =>
    rw [SQLStatement.to_string] at hout
    split at hout
    · simp at hout
    · rename_i colsS hcols
      by_cases hext : ext = true
      · rw [if_pos hext] at hout
        split at hout
        · simp at hout
          exact hout ▸ ne_empty_of_append_right _ (by decide)
        · simp at hout
      · rw [if_neg hext] at hout
        simp at hout
        exact hout ▸ ne_empty_of_append_left _ (ne_empty_of_append_right _
          (by decide))
  | SQLAlterTable name op =>
    simp [SQLStatement.to_string] at hout
    exact hout ▸ ne_empty_of_append_left _ (ne_empty_of_append_left _
      (ne_empty_of_append_left _ (by decide)))
  | SQLDropTable d =>
    simp [SQLStatement.to_string] at hout
    exact hout ▸ drop_render_ne_empty d "TABLE"
  | SQLDropDataSource d =>
    simp [SQLStatement.to_string] at hout
    exact hout ▸ drop_render_ne_empty d "DATA SOURCE"
  | SQLDropView d =>
    simp [SQLStatement.to_string] at hout
    exact hout ▸ drop_render_ne_empty d "VIEW"
  | SQLPeek name =>
    simp [SQLStatement.to_string] at hout
    exact hout ▸ ne_empty_of_append_left _ (by decide)
  | SQLTail name =>
    simp [SQLStatement.to_string] at hout
    exact hout ▸ ne_empty_of_append_left _ (by decide)

theorem type_render_total (ty : SQLType) (h : ty.wf = true) :
    (SQLType.to_string ty).isSome = true := by
  induction ty with
  | Decimal precision scale =>
    cases scale with
    | none => cases precision <;> simp [SQLType.to_string]
    | some sc =>
      simp [SQLType.wf] at h
      cases precision with
      | none => simp at h
      | some p => simp [SQLType.to_string]
  | Custom name => simp [SQLType.to_string]
  | Array ety ih =>
    simp [SQLType.wf] at h
    obtain ⟨t, ht⟩ := Option.isSome_iff_exists.mp (ih h)
    simp [SQLType.to_string, ht]
  | _ => simp [SQLType.to_string]

theorem render_total_aux (n : Nat) :
    (∀ t : ASTNode, sizeOf t ≤ n → t.wf = true →
      (ASTNode.to_string t).isSome = true) ∧
    (∀ l : List ASTNode, sizeOf l ≤ n → ASTNode.wfList l = true →
      (ASTNode.renderList l).isSome = true) ∧
    (∀ cs rs : List ASTNode, sizeOf cs + sizeOf rs ≤ n →
      ASTNode.wfList cs = true → ASTNode.wfList rs = true →
      (ASTNode.renderWhens cs rs).isSome = true) ∧
    (∀ (pre : String) (oa : Option ASTNode), sizeOf oa ≤ n →
      ASTNode.wfOpt oa = true → (ASTNode.renderOpt pre oa).isSome = true) ∧
    (∀ oo : Option SQLWindowSpec, sizeOf oo ≤ n →
      ASTNode.wfOver oo = true → (ASTNode.renderOver oo).isSome = true) ∧
    (∀ w : SQLWindowSpec, sizeOf w ≤ n → SQLWindowSpec.wf w = true →
      (SQLWindowSpec.to_string w).isSome = true) := by
  induction n using Nat.strong_induction_on with
  | _ n ih =>
    refine ⟨?_, ?_, ?_, ?_, ?_, ?_⟩
    · intro t hsize hwf
      cases t with
      | SQLIdentifier s => simp [ASTNode.to_string]
      | SQLWildcard => simp [ASTNode.to_string]
      | SQLQualifiedWildcard q => simp [ASTNode.to_string]
      | SQLCompoundIdentifier q => simp [ASTNode.to_string]
      | SQLIsNull a =>
        simp [ASTNode.wf] at hwf
        have hlt : sizeOf a < sizeOf (ASTNode.SQLIsNull a) := by
          simp <;> omega
        obtain ⟨e, he⟩ := Option.isSome_iff_exists.mp
          ((ih (sizeOf a) (lt_of_lt_of_le hlt hsize)).1 a le_rfl hwf)
        simp [ASTNode.to_string, he]
      | SQLIsNotNull a =>
        simp [ASTNode.wf] at hwf
        have hlt : sizeOf a < sizeOf (ASTNode.SQLIsNotNull a) := by
          simp <;> omega
        obtain ⟨e, he⟩ := Option.isSome_iff_exists.mp
          ((ih (sizeOf a) (lt_of_lt_of_le hlt hsize)).1 a le_rfl hwf)
        simp [ASTNode.to_string, he]
      | SQLInList e l neg =>
        simp [ASTNode.wf] at hwf
        have hlt1 : sizeOf e < sizeOf (ASTNode.SQLInList e l neg) := by
          simp <;> omega
        have hlt2 : sizeOf l < sizeOf (ASTNode.SQLInList e l neg) := by
          simp <;> omega
        obtain ⟨eS, he⟩ := Option.isSome_iff_exists.mp
          ((ih (sizeOf e) (lt_of_lt_of_le hlt1 hsize)).1 e le_rfl hwf.1)
        obtain ⟨lS, hl⟩ := Option.isSome_iff_exists.mp
          ((ih (sizeOf l) (lt_of_lt_of_le hlt2 hsize)).2.1 l le_rfl hwf.2)
        simp [ASTNode.to_string, he, hl]
      | SQLInSubquery e q neg =>
        simp [ASTNode.wf] at hwf
        have hlt : sizeOf e < sizeOf (ASTNode.SQLInSubquery e q neg) := by
          simp <;> omega
        obtain ⟨eS, he⟩ := Option.isSome_iff_exists.mp
          ((ih (sizeOf e) (lt_of_lt_of_le hlt hsize)).1 e le_rfl hwf.1)
        simp [ASTNode.to_string, he]
      | SQLBetween e neg lo hi =>
        simp [ASTNode.wf] at hwf
        have hlt1 : sizeOf e < sizeOf (ASTNode.SQLBetween e neg lo hi) := by
          simp <;> omega
        have hlt2 : sizeOf lo < sizeOf (ASTNode.SQLBetween e neg lo hi) := by
          simp <;> omega
        have hlt3 : sizeOf hi < sizeOf (ASTNode.SQLBetween e neg lo hi) := by
          simp <;> omega
        obtain ⟨eS, he⟩ := Option.isSome_iff_exists.mp
          ((ih (sizeOf e) (lt_of_lt_of_le hlt1 hsize)).1 e le_rfl hwf.1.1)
        obtain ⟨loS, hlo⟩ := Option.isSome_iff_exists.mp
          ((ih (sizeOf lo) (lt_of_lt_of_le hlt2 hsize)).1 lo le_rfl hwf.1.2)
        obtain ⟨hiS, hhi⟩ := Option.isSome_iff_exists.mp
          ((ih (sizeOf hi) (lt_of_lt_of_le hlt3 hsize)).1 hi le_rfl hwf.2)
        simp [ASTNode.to_string, he, hlo, hhi]
      | SQLBinaryExpr l op r =>
        simp [ASTNode.wf] at hwf
        have hlt1 : sizeOf l < sizeOf (ASTNode.SQLBinaryExpr l op r) := by
          simp <;> omega
        have hlt2 : sizeOf r < sizeOf (ASTNode.SQLBinaryExpr l op r) := by
          simp <;> omega
        obtain ⟨lS, hl⟩ := Option.isSome_iff_exists.mp
          ((ih (sizeOf l) (lt_of_lt_of_le hlt1 hsize)).1 l le_rfl hwf.1)
        obtain ⟨rS, hr⟩ := Option.isSome_iff_exists.mp
          ((ih (sizeOf r) (lt_of_lt_of_le hlt2 hsize)).1 r le_rfl hwf.2)
        simp [ASTNode.to_string, hl, hr]
      | SQLCast e dt =>
        simp [ASTNode.wf] at hwf
        have hlt : sizeOf e < sizeOf (ASTNode.SQLCast e dt) := by
          simp <;> omega
        obtain ⟨eS, he⟩ := Option.isSome_iff_exists.mp
          ((ih (sizeOf e) (lt_of_lt_of_le hlt hsize)).1 e le_rfl hwf.1)
        obtain ⟨tS, ht⟩ := Option.isSome_iff_exists.mp
          (type_render_total dt hwf.2)
        simp [ASTNode.to_string, he, ht]
      | SQLCollate e c =>
        simp [ASTNode.wf] at hwf
        have hlt : sizeOf e < sizeOf (ASTNode.SQLCollate e c) := by
          simp <;> omega
        obtain ⟨eS, he⟩ := Option.isSome_iff_exists.mp
          ((ih (sizeOf e) (lt_of_lt_of_le hlt hsize)).1 e le_rfl hwf.1)
        simp [ASTNode.to_string, he]
      | SQLNested a =>
        simp [ASTNode.wf] at hwf
        have hlt : sizeOf a < sizeOf (ASTNode.SQLNested a) := by
          simp <;> omega
        obtain ⟨e, he⟩ := Option.isSome_iff_exists.mp
          ((ih (sizeOf a) (lt_of_lt_of_le hlt hsize)).1 a le_rfl hwf)
        simp [ASTNode.to_string, he]
      | SQLUnary op e =>
        simp [ASTNode.wf] at hwf
        have hlt : sizeOf e < sizeOf (ASTNode.SQLUnary op e) := by
          simp <;> omega
        obtain ⟨eS, he⟩ := Option.isSome_iff_exists.mp
          ((ih (sizeOf e) (lt_of_lt_of_le hlt hsize)).1 e le_rfl hwf)
        simp [ASTNode.to_string, he]
      | SQLValue v => simp [ASTNode.to_string]
      | SQLFunction name args over all distinct =>
        simp [ASTNode.wf] at hwf
        have hlt1 : sizeOf args <
            sizeOf (ASTNode.SQLFunction name args over all distinct) := by
          simp <;> omega
        have hlt2 : sizeOf over <
            sizeOf (ASTNode.SQLFunction name args over all distinct) := by
          simp <;> omega
        obtain ⟨aS, ha⟩ := Option.isSome_iff_exists.mp
          ((ih (sizeOf args) (lt_of_lt_of_le hlt1 hsize)).2.1 args le_rfl
            hwf.1.2)
        obtain ⟨oS, ho⟩ := Option.isSome_iff_exists.mp
          ((ih (sizeOf over) (lt_of_lt_of_le hlt2 hsize)).2.2.2.2.1 over
            le_rfl hwf.2)
        simp [ASTNode.to_string, ha, ho]
      | SQLCase op conds res els =>
        simp [ASTNode.wf] at hwf
        have hlt1 : sizeOf op <
            sizeOf (ASTNode.SQLCase op conds res els) := by
          simp <;> omega
        have hlt2 : sizeOf conds + sizeOf res <
            sizeOf (ASTNode.SQLCase op conds res els) := by
          simp <;> omega
        have hlt3 : sizeOf els <
            sizeOf (ASTNode.SQLCase op conds res els) := by
          simp <;> omega
        obtain ⟨opS, hop⟩ := Option.isSome_iff_exists.mp
          ((ih (sizeOf op) (lt_of_lt_of_le hlt1 hsize)).2.2.2.1 " " op le_rfl
            hwf.1.1.1.1)
        obtain ⟨wS, hw⟩ := Option.isSome_iff_exists.mp
          ((ih (sizeOf conds + sizeOf res) (lt_of_lt_of_le hlt2 hsize)).2.2.1
            conds res le_rfl hwf.1.1.1.2 hwf.1.1.2)
        obtain ⟨eS, hels⟩ := Option.isSome_iff_exists.mp
          ((ih (sizeOf els) (lt_of_lt_of_le hlt3 hsize)).2.2.2.1 " ELSE " els
            le_rfl hwf.1.2)
        simp [ASTNode.to_string, hop, hw, hels]
      | SQLSubquery q => simp [ASTNode.to_string]
    · intro l hsize hwfl
      cases l with
      | nil => simp [ASTNode.renderList]
      | cons a rest =>
        simp [ASTNode.wfList] at hwfl
        have hlt1 : sizeOf a < sizeOf (a :: rest) := by simp <;> omega
        have hlt2 : sizeOf rest < sizeOf (a :: rest) := by simp <;> omega
        obtain ⟨aS, ha⟩ := Option.isSome_iff_exists.mp
          ((ih (sizeOf a) (lt_of_lt_of_le hlt1 hsize)).1 a le_rfl hwfl.1)
        obtain ⟨restS, hrest⟩ := Option.isSome_iff_exists.mp
          ((ih (sizeOf rest) (lt_of_lt_of_le hlt2 hsize)).2.1 rest le_rfl
            hwfl.2)
        simp [ASTNode.renderList, ha, hrest]
    · intro cs rs hsize hwfc hwfr
      cases cs with
      | nil => simp [ASTNode.renderWhens]
      | cons c cst =>
        cases rs with
        | nil => simp [ASTNode.renderWhens]
        | cons r rst =>
          simp [ASTNode.wfList] at hwfc hwfr
          have hlt1 : sizeOf c < sizeOf (c :: cst) + sizeOf (r :: rst) := by
            simp <;> omega
          have hlt2 : sizeOf r < sizeOf (c :: cst) + sizeOf (r :: rst) := by
            simp <;> omega
          have hlt3 : sizeOf cst + sizeOf rst <
              sizeOf (c :: cst) + sizeOf (r :: rst) := by
            simp <;> omega
          obtain ⟨cS, hcS⟩ := Option.isSome_iff_exists.mp
            ((ih (sizeOf c) (lt_of_lt_of_le hlt1 hsize)).1 c le_rfl hwfc.1)
          obtain ⟨rS, hrS⟩ := Option.isSome_iff_exists.mp
            ((ih (sizeOf r) (lt_of_lt_of_le hlt2 hsize)).1 r le_rfl hwfr.1)
          obtain ⟨restS, hrest⟩ := Option.isSome_iff_exists.mp
            ((ih (sizeOf cst + sizeOf rst)
              (lt_of_lt_of_le hlt3 hsize)).2.2.1 cst rst le_rfl hwfc.2
              hwfr.2)
          simp [ASTNode.renderWhens, hcS, hrS, hrest]
    · intro pre oa hsize hwfo
      cases oa with
      | none => simp [ASTNode.renderOpt]
      | some a =>
        simp [ASTNode.wfOpt] at hwfo
        have hlt : sizeOf a < sizeOf (some a : Option ASTNode) := by
          simp
        obtain ⟨aS, ha⟩ := Option.isSome_iff_exists.mp
          ((ih (sizeOf a) (lt_of_lt_of_le hlt hsize)).1 a le_rfl hwfo)
        simp [ASTNode.renderOpt, ha]
    · intro oo hsize hwfo
      cases oo with
      | none => simp [ASTNode.renderOver]
      | some w =>
        simp [ASTNode.wfOver] at hwfo
        have hlt : sizeOf w < sizeOf (some w : Option SQLWindowSpec) := by
          simp
        obtain ⟨wS, hw⟩ := Option.isSome_iff_exists.mp
          ((ih (sizeOf w) (lt_of_lt_of_le hlt hsize)).2.2.2.2.2 w le_rfl hwfo)
        simp [ASTNode.renderOver, hw]
    · intro w hsize hwfw
      cases w with
      | mk pb ob wfr =>
        simp [SQLWindowSpec.wf] at hwfw
        have hlt : sizeOf pb < sizeOf (SQLWindowSpec.mk pb ob wfr) := by
          simp <;> omega
        obtain ⟨pbS, hpb⟩ := Option.isSome_iff_exists.mp
          ((ih (sizeOf pb) (lt_of_lt_of_le hlt hsize)).2.1 pb le_rfl hwfw)
        rw [SQLWindowSpec.to_string.eq_def]
        simp [hpb]

theorem ast_render_total (t : ASTNode) (h : t.wf = true) :
    (ASTNode.to_string t).isSome = true :=
  (render_total_aux (sizeOf t)).1 t le_rfl h

theorem renderList_total (l : List ASTNode) (h : ASTNode.wfList l = true) :
    (ASTNode.renderList l).isSome = true :=
  (render_total_aux (sizeOf l)).2.1 l le_rfl h

theorem renderOpt_total (pre : String) (oa : Option ASTNode)
    (h : ASTNode.wfOpt oa = true) :
    (ASTNode.renderOpt pre oa).isSome = true :=
  (render_total_aux (sizeOf oa)).2.2.2.1 pre oa le_rfl h

theorem renderColumnDefs_total (cols : List SQLColumnDef)
    (h : cols.all SQLColumnDef.wf = true) :
    (renderColumnDefs cols).isSome = true := by
  induction cols with
  | nil => simp [renderColumnDefs]
  | cons c rest ihc =>
    simp [List.all_cons] at h
    have hc : c.wf = true := h.1
    simp [SQLColumnDef.wf] at hc
    obtain ⟨tS, ht⟩ := Option.isSome_iff_exists.mp
      (type_render_total c.data_type hc.1.2)
    obtain ⟨dS, hd⟩ := Option.isSome_iff_exists.mp
      (renderOpt_total " DEFAULT " c.default hc.2)
    obtain ⟨restS, hrest⟩ := Option.isSome_iff_exists.mp
      (ihc (by simp only [List.all_eq_true]; exact fun x hx => h.2 x hx))
    simp [renderColumnDefs, SQLColumnDef.to_string, ht, hd, hrest]

theorem renderAssignments_total (asgn : List SQLAssignment)
    (h : asgn.all (fun a => ASTNode.wf a.value) = true) :
    (renderAssignments asgn).isSome = true := by
  induction asgn with
  | nil => simp [renderAssignments]
  | cons a rest iha =>
    simp [List.all_cons] at h
    obtain ⟨vS, hv⟩ := Option.isSome_iff_exists.mp
      (ast_render_total a.value h.1)
    obtain ⟨restS, hrest⟩ := Option.isSome_iff_exists.mp
      (iha (by simp only [List.all_eq_true]; exact fun x hx => h.2 x hx))
    simp [renderAssignments, SQLAssignment.to_string, hv, hrest]

theorem renderRows_total (rows : List (List ASTNode))
    (h : rows.all (fun row => ASTNode.wfList row) = true) :
    (renderRows rows).isSome = true := by
  induction rows with
  | nil => simp [renderRows]
  | cons row rest ihr =>
    simp [List.all_cons] at h
    obtain ⟨rowS, hrow⟩ := Option.isSome_iff_exists.mp
      (renderList_total row h.1)
    obtain ⟨restS, hrest⟩ := Option.isSome_iff_exists.mp
      (ihr (by simp only [List.all_eq_true]; exact fun x hx => h.2 x hx))
    simp [renderRows, hrow, hrest]

theorem stmt_render_total (st : SQLStatement) (h : st.wf = true) :
    (SQLStatement.to_string st).isSome = true := by
  cases st with
  | SQLQuery q => simp [SQLStatement.to_string]
  | SQLInsert name cols vals =>
    simp [SQLStatement.wf] at h
    obtain ⟨rowsS, hrows⟩ := Option.isSome_iff_exists.mp
      (renderRows_total vals
        (by simp only [List.all_eq_true]; exact fun x hx => h.2 x hx))
    simp [SQLStatement.to_string, hrows]
  | SQLCopy name cols vals => simp [SQLStatement.to_string]
  | SQLUpdate name asgn sel =>
    simp [SQLStatement.wf] at h
    obtain ⟨aS, ha⟩ := Option.isSome_iff_exists.mp
      (renderAssignments_total asgn
        (by simp only [List.all_eq_true]; exact fun x hx => h.1.2 x hx))
    obtain ⟨sS, hs⟩ := Option.isSome_iff_exists.mp
      (renderOpt_total " WHERE " sel h.2)
    simp [SQLStatement.to_string, ha, hs]
  | SQLDelete name sel =>
    simp [SQLStatement.wf] at h
    obtain ⟨sS, hs⟩ := Option.isSome_iff_exists.mp
      (renderOpt_total " WHERE " sel h.2)
    simp [SQLStatement.to_string, hs]
  | SQLCreateDataSource name url schema wo => simp [SQLStatement.to_string]
  | SQLCreateDataSink name f url wo => simp [SQLStatement.to_string]
  | SQLCreateView name q mat wo => simp [SQLStatement.to_string]
  | SQLCreateTable name cols wo ext ff loc =>
    cases hext : ext with
    | false =>
      rw [hext] at h
      simp [SQLStatement.wf] at h
      obtain ⟨colsS, hcols⟩ := Option.isSome_iff_exists.mp
        (renderColumnDefs_total cols
          (by simp only [List.all_eq_true]; exact fun x hx => h.2 x hx))
      rw [SQLStatement.to_string, hcols]
      simp
    | true =>
      rw [hext] at h
      simp [SQLStatement.wf] at h
      obtain ⟨colsS, hcols⟩ := Option.isSome_iff_exists.mp
        (renderColumnDefs_total cols
          (by simp only [List.all_eq_true]; exact fun x hx => h.1.2 x hx))
      obtain ⟨f, hf⟩ := Option.isSome_iff_exists.mp h.2.1
      obtain ⟨l, hl⟩ := Option.isSome_iff_exists.mp h.2.2
      rw [SQLStatement.to_string, hcols]
      simp [hf, hl]
  | SQLAlterTable name op => simp [SQLStatement.to_string]
  | SQLDropTable d => simp [SQLStatement.to_string]
  | SQLDropDataSource d => simp [SQLStatement.to_string]
  | SQLDropView d => simp [SQLStatement.to_string]
  | SQLPeek name => simp [SQLStatement.to_string]
  | SQLTail name => simp [SQLStatement.to_string]

theorem ne_of_distinct_suffix (a b : String) {p q : String}
    (hlen : p.length = q.length) (hne : p ≠ q) : a ++ p ≠ b ++ q := by
  intro hc
  have hd := congrArg String.data hc
  rw [String.data_append, String.data_append] at hd
  have hl : p.data.length = q.data.length := hlen
  obtain ⟨-, h2⟩ := List.append_inj' hd hl
  exact hne (String.ext_iff.mpr h2)

/-- Claim C9, counterexample: distinct variants do not always produce
distinguishable text. The JSON-file and text-file variants of the file-format
enum are distinct yet render to the same string; the well-formed identifier
star and the wildcard are distinct expression variants rendering the same
text; the int type and a custom type named int are distinct type variants
rendering the same text; and, the query sub-model being external and its text
unconstrained by the spec, a query whose external text is PEEK t renders the
same as the point-in-time read of t. -/
theorem file_format_variant_collision :
    (FileFormat.JSONFILE ≠ FileFormat.TEXTFILE ∧
      FileFormat.to_string FileFormat.JSONFILE =
        FileFormat.to_string FileFormat.TEXTFILE) ∧
    (ASTNode.SQLIdentifier "*" ≠ ASTNode.SQLWildcard ∧
      (ASTNode.SQLIdentifier "*").wf = true ∧
      ASTNode.SQLWildcard.wf = true ∧
      ASTNode.to_string (ASTNode.SQLIdentifier "*") =
        ASTNode.to_string ASTNode.SQLWildcard) ∧
    (SQLType.Custom ⟨["int"]⟩ ≠ SQLType.Int ∧
      (SQLType.Custom ⟨["int"]⟩).wf = true ∧
      SQLType.Int.wf = true ∧
      SQLType.to_string (SQLType.Custom ⟨["int"]⟩) =
        SQLType.to_string SQLType.Int) ∧
    (SQLStatement.SQLQuery ⟨"PEEK t"⟩ ≠ SQLStatement.SQLPeek ⟨["t"]⟩ ∧
      (SQLStatement.SQLQuery ⟨"PEEK t"⟩).wf = true ∧
      (SQLStatement.SQLPeek ⟨["t"]⟩).wf = true ∧
      SQLStatement.to_string (SQLStatement.SQLQuery ⟨"PEEK t"⟩) =
        SQLStatement.to_string (SQLStatement.SQLPeek ⟨["t"]⟩)) := by
  refine ⟨⟨by decide, rfl⟩,
    ⟨fun h => ASTNode.noConfusion h, by simp [ASTNode.wf], by simp [ASTNode.wf],
      by simp [ASTNode.to_string]⟩,
    ⟨fun h => SQLType.noConfusion h, by simp [SQLType.wf, SQLObjectName.wf],
      by simp [SQLType.wf], rfl⟩,
    ⟨fun h => SQLStatement.noConfusion h, by simp [SQLStatement.wf],
      by simp [SQLStatement.wf, SQLObjectName.wf], rfl⟩⟩

/-- Claim C9 (amended): every well-formed value of every tagged union renders
successfully to a non-empty string; the window-frame-units and
window-frame-bound enums render distinct variants to distinguishable text,
and the file-format enum does too except that the JSON-file variant renders
identically to the text-file variant; the expression, statement and type
unions do not in general give distinct variants distinguishable text, as the
counterexample exhibits. -/
theorem render_variant_spec :
    (∀ t : ASTNode, t.wf = true →
      ∃ out, ASTNode.to_string t = some out ∧ out ≠ "") ∧
    (∀ st : SQLStatement, st.wf = true →
      ∃ out, SQLStatement.to_string st = some out ∧ out ≠ "") ∧
    (∀ ty : SQLType, ty.wf = true →
      ∃ out, SQLType.to_string ty = some out ∧ out ≠ "") ∧
    (∀ b : SQLWindowFrameBound, b.to_string ≠ "") ∧
    (∀ u : SQLWindowFrameUnits, u.to_string ≠ "") ∧
    (∀ f : FileFormat, f.to_string ≠ "") ∧
    (∀ u v : SQLWindowFrameUnits, u.to_string = v.to_string → u = v) ∧
    (∀ p : Option Nat, (SQLWindowFrameBound.Preceding p).to_string ≠
      SQLWindowFrameBound.CurrentRow.to_string) ∧
    (∀ p : Option Nat, (SQLWindowFrameBound.Following p).to_string ≠
      SQLWindowFrameBound.CurrentRow.to_string) ∧
    (∀ p q : Option Nat, (SQLWindowFrameBound.Preceding p).to_string ≠
      (SQLWindowFrameBound.Following q).to_string) ∧
    (∀ f g : FileFormat, f.to_string = g.to_string →
      f = g ∨ (f = FileFormat.JSONFILE ∧ g = FileFormat.TEXTFILE) ∨
        (f = FileFormat.TEXTFILE ∧ g = FileFormat.JSONFILE)) := by
  refine ⟨?_, ?_, ?_, ?_, ?_, ?_, ?_, ?_, ?_, ?_, ?_⟩
  · intro t h
    obtain ⟨out, hout⟩ := Option.isSome_iff_exists.mp (ast_render_total t h)
    exact ⟨out, hout, ast_render_ne_empty t h out hout⟩
  · intro st h
    obtain ⟨out, hout⟩ := Option.isSome_iff_exists.mp (stmt_render_total st h)
    exact ⟨out, hout, stmt_render_ne_empty st h out hout⟩
  · intro ty h
    obtain ⟨out, hout⟩ := Option.isSome_iff_exists.mp (type_render_total ty h)
    exact ⟨out, hout, type_render_ne_empty ty h out hout⟩
  · intro b
    cases b with
    | CurrentRow => decide
    | Preceding off =>
      cases off with
      | none => decide
      | some n =>
        rw [SQLWindowFrameBound.to_string]
        exact ne_empty_of_append_right _ (by decide)
    | Following off =>
      cases off with
      | none => decide
      | some n =>
        rw [SQLWindowFrameBound.to_string]
        exact ne_empty_of_append_right _ (by decide)
  · intro u
    cases u <;> decide
  · intro f
    cases f <;> decide
  · intro u v h
    cases u <;> cases v <;> first
      | rfl
      | exact absurd h (by decide)
  · intro p
    cases p with
    | none => decide
    | some n =>
      simp only [SQLWindowFrameBound.to_string]
      have h : ("C" : String) ++ "URRENT ROW" = "CURRENT ROW" := rfl
      rw [← h]
      exact ne_of_distinct_suffix (toString n) "C" (by decide) (by decide)
  · intro p
    cases p with
    | none => decide
    | some n =>
      simp only [SQLWindowFrameBound.to_string]
      have h : ("C" : String) ++ "URRENT ROW" = "CURRENT ROW" := rfl
      rw [← h]
      exact ne_of_distinct_suffix (toString n) "C" (by decide) (by decide)
  · intro p q
    cases p with
    | none =>
      cases q with
      | none => decide
      | some m =>
        simp only [SQLWindowFrameBound.to_string]
        have h : ("UNBOUNDED" : String) ++ " PRECEDING" =
          "UNBOUNDED PRECEDING" := rfl
        rw [← h]
        exact ne_of_distinct_suffix "UNBOUNDED" (toString m) (by decide)
          (by decide)
    | some n =>
      cases q with
      | none =>
        simp only [SQLWindowFrameBound.to_string]
        have h : ("UNBOUNDED" : String) ++ " FOLLOWING" =
          "UNBOUNDED FOLLOWING" := rfl
        rw [← h]
        exact ne_of_distinct_suffix (toString n) "UNBOUNDED" (by decide)
          (by decide)
      | some m =>
        simp only [SQLWindowFrameBound.to_string]
        exact ne_of_distinct_suffix (toString n) (toString m) (by decide)
          (by decide)
  · intro f g h
    cases f <;> cases g <;> first
      | (left; rfl)
      | (right; left; exact ⟨rfl, rfl⟩)
      | (right; right; exact ⟨rfl, rfl⟩)
      | exact absurd h (by decide)

theorem render_variant_spec_witness :
    (∃ out, ASTNode.to_string ASTNode.SQLWildcard = some out ∧ out ≠ "") ∧
    (∃ out, SQLStatement.to_string (SQLStatement.SQLPeek ⟨["t"]⟩) =
      some out ∧ out ≠ "") ∧
    (∃ out, SQLType.to_string SQLType.Int = some out ∧ out ≠ "") :=
  ⟨render_variant_spec.1 ASTNode.SQLWildcard (by simp [ASTNode.wf]),
    render_variant_spec.2.1 (SQLStatement.SQLPeek ⟨["t"]⟩)
      (by simp [SQLStatement.wf, SQLObjectName.wf]),
    render_variant_spec.2.2.1 SQLType.Int (by simp [SQLType.wf])⟩

end SqlAst
